/-
Verification of the emissions / Safeguard Mechanism projection engine.

Shallow embedding of the calculation core:
  - calc_calendar.py : fiscal-year arithmetic (date_to_fy, fy_to_date_range)
  - config.py        : regulatory constants, transition schedule, phase labels
  - projections.py   : ERC decline, hybrid EI, annual baseline,
                       monthly aggregation, safeguard metrics
  - loader_nga.py    : NGA factor store (year/name resolution, factor lookup)
  - calc_emissions.py: factor-map builder and per-row emissions calculator

Python floats are modelled as exact rationals (ℚ); pandas DataFrames as
lists of records.  Logging calls have no effect on computed values and are
omitted.
-/
import Mathlib

/-! ## Dates (Python datetime restricted to year/month/day) -/

structure MDate where
  year : ℤ
  month : ℕ
  day : ℕ
deriving DecidableEq

/-- Lexicographic strict order on dates, as Python datetime comparison. -/
def MDate.lt (a b : MDate) : Prop :=
  a.year < b.year ∨ (a.year = b.year ∧
    (a.month < b.month ∨ (a.month = b.month ∧ a.day < b.day)))

instance (a b : MDate) : Decidable (MDate.lt a b) := by
  unfold MDate.lt; infer_instance

def MDate.ltB (a b : MDate) : Bool := decide (MDate.lt a b)

def MDate.leB (a b : MDate) : Bool := !(MDate.ltB b a)

/-! ## calc_calendar.py -/

/-- `date_to_fy`: month ≥ 7 (July) belongs to the next fiscal year. -/
def date_to_fy (d : MDate) : ℤ :=
  if 7 ≤ d.month then d.year + 1 else d.year

/-- First component of `fy_to_date_range fy`: 1 July of the previous year. -/
def fy_start_date (fy : ℤ) : MDate := ⟨fy - 1, 7, 1⟩

/-! ## config.py constants -/

def DECLINE_RATE_PHASE1 : ℚ := 0.049
def DECLINE_RATE_PHASE2 : ℚ := 0.03285
def DECLINE_PHASE1_START : ℤ := 2024
def DECLINE_PHASE1_END : ℤ := 2030
def DECLINE_PHASE2_END : ℤ := 2050

def SAFEGUARD_THRESHOLD : ℚ := 100000
def SAFEGUARD_MINIMUM_BASELINE : ℚ := 100000
def SAFEGUARD_START_DATE : MDate := ⟨2023, 7, 1⟩

def DEFAULT_INDUSTRY_EI_ROM : ℚ := 0.00859
def DEFAULT_INDUSTRY_EI_ELEC : ℚ := 0.539

def S58B_EARLIEST_FY : ℤ := 2029
def S58B_LOOKBACK : ℕ := 5
def S58B_MIN_COVERED : ℕ := 3

def DEFAULT_GRID_CONNECTION_DATE : MDate := ⟨2027, 7, 1⟩

/-- `TRANSITION_SCHEDULE` dict from config.py (fy 2024..2030). -/
def TRANSITION_SCHEDULE (fy : ℤ) : Option ℚ :=
  if fy = 2024 then some 0.10
  else if fy = 2025 then some 0.20
  else if fy = 2026 then some 0.30
  else if fy = 2027 then some 0.40
  else if fy = 2028 then some 0.60
  else if fy = 2029 then some 0.80
  else if fy = 2030 then some 1.00
  else none

/-- `get_transition_proportion` from config.py. -/
def get_transition_proportion (fy : ℤ) : ℚ :=
  if fy < DECLINE_PHASE1_START then 0
  else
    match TRANSITION_SCHEDULE fy with
    | some h => h
    | none => 1

/-- `get_phase_name` from config.py (operational phase label). -/
def get_phase_name (date end_mining_date end_processing_date
    end_rehabilitation_date : MDate) (grid_connected_date : Option MDate) : String :=
  if date.leB end_mining_date then
    match grid_connected_date with
    | some g => if g.leB date then "Mining (Grid)" else "Mining"
    | none => "Mining"
  else if date.leB end_processing_date then "Processing"
  else if date.leB end_rehabilitation_date then "Rehabilitation"
  else "Closed"

/-! ## projections.py: ERC, hybrid EI, annual baseline -/

/-- `calculate_erc_for_fy` from projections.py. -/
def calculate_erc_for_fy (fy : ℤ) (decline_rate_phase2 : Option ℚ) : ℚ :=
  if fy < DECLINE_PHASE1_START then 1.0
  else if fy ≤ DECLINE_PHASE1_END then
    max (1.0 - (((fy - (DECLINE_PHASE1_START - 1)) : ℤ) : ℚ) * DECLINE_RATE_PHASE1) 0.0
  else
    let phase1_years : ℤ := DECLINE_PHASE1_END - (DECLINE_PHASE1_START - 1)
    let erc_end_phase1 : ℚ := 1.0 - ((phase1_years : ℚ) * DECLINE_RATE_PHASE1)
    let rate_p2 : ℚ := decline_rate_phase2.getD DECLINE_RATE_PHASE2
    if fy ≤ DECLINE_PHASE2_END then
      max (erc_end_phase1 - (((fy - DECLINE_PHASE1_END : ℤ) : ℚ) * rate_p2)) 0.0
    else
      max (erc_end_phase1 - (((DECLINE_PHASE2_END - DECLINE_PHASE1_END : ℤ) : ℚ) * rate_p2)) 0.0

/-- The piecewise reference ERC definition, stated from the spec text:
1.0 before FY2024; `max (1 - (fy-2023)·0.049) 0` on FY2024..FY2030;
`max (0.657 - (fy-2030)·0.03285) 0` on FY2031..FY2050; frozen at the
FY2050 value afterwards. -/
def erc_ref (fy : ℤ) : ℚ :=
  if fy < 2024 then 1.0
  else if fy ≤ 2030 then max (1.0 - ((fy : ℚ) - 2023) * 0.049) 0
  else if fy ≤ 2050 then max (0.657 - ((fy : ℚ) - 2030) * 0.03285) 0
  else max (0.657 - ((2050 : ℚ) - 2030) * 0.03285) 0

/-- `calculate_hybrid_ei` from projections.py. -/
def calculate_hybrid_ei (fy : ℤ) (fsei_rom fsei_elec : ℚ)
    (default_ei_rom : ℚ := DEFAULT_INDUSTRY_EI_ROM)
    (default_ei_elec : ℚ := DEFAULT_INDUSTRY_EI_ELEC) : ℚ × ℚ :=
  let h := get_transition_proportion fy
  ((h * default_ei_rom) + ((1 - h) * fsei_rom),
   (h * default_ei_elec) + ((1 - h) * fsei_elec))

/-- `calculate_annual_baseline` from projections.py.
Returns `(floored_baseline, unfloored_baseline)`. -/
def calculate_annual_baseline (fy : ℤ) (rom_t site_mwh fsei_rom fsei_elec : ℚ)
    (decline_rate_phase2 : Option ℚ) : ℚ × ℚ :=
  let erc := calculate_erc_for_fy fy decline_rate_phase2
  let hy := calculate_hybrid_ei fy fsei_rom fsei_elec
  let unfloored := erc * ((hy.1 * rom_t) + (hy.2 * site_mwh))
  let floored := max unfloored SAFEGUARD_MINIMUM_BASELINE
  (floored, unfloored)

/-! ## String helpers (Python str operations over character lists) -/

/-- Python `s.startswith(p)`. -/
def startswith (s p : String) : Bool := p.data.isPrefixOf s.data

/-- Lowercase an ASCII letter as Python `str.lower` does on A-Z. -/
def lowerChar (c : Char) : Char :=
  if 'A' ≤ c ∧ c ≤ 'Z' then Char.ofNat (c.toNat + 32) else c

/-- Is `p` a contiguous sublist of `l`? (Python `in` on strings.) -/
def listInfix (p : List Char) : List Char → Bool
  | [] => p.isEmpty
  | c :: cs => p.isPrefixOf (c :: cs) || listInfix p cs

/-- Pandas `Series.str.contains(pat, case=False)` for a literal pattern. -/
def containsCaseless (s pat : String) : Bool :=
  listInfix (pat.data.map lowerChar) (s.data.map lowerChar)

/-- Characters after the last slash of a list, if any slash occurs. -/
def afterLastSlash : List Char → Option (List Char)
  | [] => none
  | c :: cs =>
    match afterLastSlash cs with
    | some r => some r
    | none => if c = '/' then some cs else none

/-- Python `str.strip()` (whitespace both ends). -/
def stripChars (l : List Char) : List Char :=
  ((l.dropWhile Char.isWhitespace).reverse.dropWhile Char.isWhitespace).reverse

/-! ## loader_nga.py: NGA factor store -/

/-- One row of nga_factors.csv.  `state` is `none` for NaN. -/
structure NGARow where
  nga_year : ℤ
  fuel_name : String
  scope : ℤ
  state : Option String
  ef_kgCO2e_per_unit : ℚ
  ef_unit : String
  energy_content : Option ℚ
  energy_unit : String
deriving DecidableEq

/-- Resolved factor record returned by `match_fuel_factor`. -/
structure FactorRec where
  ef_kgCO2e_per_unit : ℚ
  ef_unit : String
  energy_content : Option ℚ
  energy_unit : String
  fuel_name : String
deriving DecidableEq

/-- Insert preserving ascending order, dropping duplicates (sorted unique). -/
def insertYear (y : ℤ) : List ℤ → List ℤ
  | [] => [y]
  | x :: xs =>
    if y < x then y :: x :: xs
    else if y = x then x :: xs
    else x :: insertYear y xs

/-- `sorted(df[col].unique())` for integer years. -/
def sortedUniqueYears (l : List ℤ) : List ℤ := l.foldr insertYear []

/-- `self.available_years`. -/
def available_years (df : List NGARow) : List ℤ :=
  sortedUniqueYears (df.map NGARow.nga_year)

/-- Keep the first occurrence of each string (pandas `.unique()`). -/
def uniqFirst (seen : List String) : List String → List String
  | [] => []
  | x :: xs => if x ∈ seen then uniqFirst seen xs else x :: uniqFirst (x :: seen) xs

/-- Stable insertion into a list sorted by string length. -/
def insertByLen (s : String) : List String → List String
  | [] => [s]
  | t :: ts => if s.length ≤ t.length then s :: t :: ts else t :: insertByLen s ts

/-- `sorted(names, key=len)` (stable, shortest first). -/
def sortByLen (l : List String) : List String := l.foldr insertByLen []

/-- `self._fuel_names_by_year[year]`: unique fuel names of the year,
sorted shortest-first. -/
def fuel_names_for (df : List NGARow) (year : ℤ) : List String :=
  sortByLen (uniqFirst [] ((df.filter (fun r => r.nga_year == year)).map NGARow.fuel_name))

/-- Python `min(rest0, key=lambda y: abs(y - target))`: first minimiser. -/
def pyMinByAbsDist (target y0 : ℤ) (rest : List ℤ) : ℤ :=
  rest.foldl (fun b x => if |x - target| < |b - target| then x else b) y0

/-- `NGAFactorsByYear._resolve_year`. -/
def _resolve_year (df : List NGARow) (year : ℤ) : Option ℤ :=
  let ys := available_years df
  if year ∈ ys then some year
  else
    match ys with
    | [] => none
    | y0 :: rest =>
      let mn := (y0 :: rest).foldl min y0
      let mx := (y0 :: rest).foldl max y0
      if year < mn then some mn
      else if mx < year then some mx
      else some (pyMinByAbsDist year y0 rest)

/-- `NGAFactorsByYear._resolve_fuel_name`: exact match first, then the
first (shortest) stored name having the query as a prefix. -/
def _resolve_fuel_name (df : List NGARow) (year : ℤ) (q : String) : Option String :=
  let names := fuel_names_for df year
  if q ∈ names then some q
  else names.find? (fun name => startswith name q)

/-- `NGAFactorsByYear.match_fuel_factor`. -/
def match_fuel_factor (df : List NGARow) (year : ℤ) (q : String)
    (scope : ℤ) (state : String) : Option FactorRec :=
  match _resolve_year df year with
  | none => none
  | some y =>
    match _resolve_fuel_name df y q with
    | none => none
    | some full_name =>
      let mask := df.filter (fun r =>
        r.nga_year == y && r.fuel_name == full_name && r.scope == scope &&
        (if state ≠ "" then r.state == some state
         else (r.state == none || r.state == some "")))
      match mask.head? with
      | none => none
      | some row =>
        some ⟨row.ef_kgCO2e_per_unit, row.ef_unit, row.energy_content,
              row.energy_unit, full_name⟩

/-- `NGAFactorsByYear.expected_uom`: text after the last `/`, stripped. -/
def expected_uom (ef_unit : String) : String :=
  match afterLastSlash ef_unit.data with
  | some r => ⟨stripChars r⟩
  | none => ""

/-- `NGAFactorsByYear.get_electricity_factor`. -/
def get_electricity_factor (df : List NGARow) (year : ℤ) (state : String)
    (scope : ℤ) : Option ℚ :=
  (match_fuel_factor df year "Grid electricity" scope state).map
    FactorRec.ef_kgCO2e_per_unit

/-! ## calc_emissions.py: factor-map builder -/

/-- One entry of the per-year factor map. -/
structure FactorBundle where
  s1 : ℚ
  s2 : ℚ
  s3 : ℚ
  energy : ℚ
  e_uom : String
deriving DecidableEq

/-- The `{year: {key: bundle}}` dict, as an insertion-ordered list. -/
abbrev FactorMapT := List (ℤ × List (String × FactorBundle))

def FUEL_PREFIXES : List String :=
  ["Diesel oil-Cars and light commercial vehicles",
   "Diesel oil",
   "Liquefied petroleum gas (LPG)",
   "Petroleum based oils",
   "Petroleum based greases",
   "Gaseous fossil fuels other than"]

def scope1_missing_msg (p : String) (year : ℤ) : String :=
  "No NGA Scope 1 factor for \x27" ++ p ++ "\x27 in FY" ++ toString year ++ "."

def elec_missing_msg (state : String) (year : ℤ) : String :=
  "No NGA electricity Scope 2 factor for " ++ state ++ " in FY" ++ toString year ++ "."

/-- The fuel-factor loop of `build_year_factor_map` for one year:
Scope-1 absence raises (naming category and year); Scope-3 absence
degrades to a zero factor. -/
def build_fuel_factors (df : List NGARow) (year : ℤ) :
    List String → Except String (List (String × FactorBundle))
  | [] => .ok []
  | p :: ps =>
    match match_fuel_factor df year p 1 "" with
    | none => .error (scope1_missing_msg p year)
    | some s1 =>
      match build_fuel_factors df year ps with
      | .error e => .error e
      | .ok rest =>
        let s3 := match_fuel_factor df year p 3 ""
        let energy_per_unit : ℚ :=
          match s1.energy_content with
          | some e => e
          | none => 0
        .ok ((p, ⟨s1.ef_kgCO2e_per_unit, 0,
              (match s3 with | some r => r.ef_kgCO2e_per_unit | none => 0),
              energy_per_unit, expected_uom s1.ef_unit⟩) :: rest)

/-- The complete factor dict of one year (fuels then grid electricity). -/
def build_year_entry (df : List NGARow) (state : String) (year : ℤ) :
    Except String (List (String × FactorBundle)) :=
  match build_fuel_factors df year FUEL_PREFIXES with
  | .error e => .error e
  | .ok fuels =>
    match get_electricity_factor df year state 2 with
    | none => .error (elec_missing_msg state year)
    | some s2 =>
      let s3 := get_electricity_factor df year state 3
      .ok (fuels ++ [("Grid electricity",
        ⟨0, s2, (match s3 with | some v => v | none => 0), 0.0036, "kWh"⟩)])

/-- `build_year_factor_map` from calc_emissions.py. -/
def build_year_factor_map (df : List NGARow) (unique_years : List ℤ)
    (state : String) : Except String FactorMapT :=
  unique_years.foldlM (fun acc year =>
    match build_year_entry df state year with
    | .error e => .error e
    | .ok entry => .ok (acc ++ [(year, entry)])) ([] : FactorMapT)

/-! ## calc_emissions.py: apply_emissions_to_df -/

/-- One consumption row before emissions are applied.  `nga_fuel = none`
models a NaN NGAFuel cell. -/
structure ConsRow where
  description : String
  nga_fuel : Option String
  uom : String
  quantity : ℚ
  fy : ℤ
deriving DecidableEq

/-- A consumption row with the four computed output columns. -/
structure EmisRow where
  row : ConsRow
  scope1_tCO2e : ℚ
  scope2_tCO2e : ℚ
  scope3_tCO2e : ℚ
  energy_GJ : ℚ
deriving DecidableEq

/-- `has_fuel`: NGAFuel is present and nonempty. -/
def has_fuel (r : ConsRow) : Bool :=
  match r.nga_fuel with
  | some s => s ≠ ""
  | none => false

/-- `year_factor_map.get(year)` (first entry wins, as a Python dict has
unique keys). -/
def mapGetYear (fmap : FactorMapT) (year : ℤ) :
    Option (List (String × FactorBundle)) :=
  (fmap.find? (fun p => p.1 == year)).map Prod.snd

/-- Factor-key resolution in `apply_emissions_to_df`: exact match, then the
longest key that is a prefix of the fuel tag (first among equals, as Python
`max`), then the first key the fuel tag is a prefix of. -/
def resolve_factor_key (keys : List String) (f : String) : Option String :=
  if f ∈ keys then some f
  else
    match keys.filter (fun k => startswith f k) with
    | [] => (keys.filter (fun k => startswith k f)).head?
    | k0 :: rest =>
      some (rest.foldl (fun b x => if b.length < x.length then x else b) k0)

/-- The factor bundle effective for one row of `apply_emissions_to_df`:
the factor key is resolved against the map of the sample year of the fuel
group (the year of the first row carrying the same fuel tag), the factors
come from the own year of the row. -/
def row_bundle (rows : List ConsRow) (fmap : FactorMapT) (r : ConsRow) :
    Option FactorBundle :=
  match r.nga_fuel with
  | none => none
  | some f =>
    if f = "" then none
    else
      match rows.find? (fun x => has_fuel x && x.nga_fuel == some f) with
      | none => none
      | some x0 =>
        match mapGetYear fmap x0.fy with
        | none => none
        | some year_factors =>
          match resolve_factor_key (year_factors.map Prod.fst) f with
          | none => none
          | some key =>
            match mapGetYear fmap r.fy with
            | none => none
            | some yfs => (yfs.find? (fun p => p.1 == key)).map Prod.snd

/-- Emissions columns for one row: Python truthiness skips a zero factor,
leaving the initialised 0.0. -/
def emis_row (rows : List ConsRow) (fmap : FactorMapT) (r : ConsRow) : EmisRow :=
  match row_bundle rows fmap r with
  | none => ⟨r, 0, 0, 0, 0⟩
  | some yf =>
    ⟨r,
     (if yf.s1 ≠ 0 then r.quantity * yf.s1 / 1000 else 0),
     (if yf.s2 ≠ 0 then r.quantity * yf.s2 / 1000 else 0),
     (if yf.s3 ≠ 0 then r.quantity * yf.s3 / 1000 else 0),
     (if yf.energy ≠ 0 then r.quantity * yf.energy else 0)⟩

/-- `apply_emissions_to_df` from calc_emissions.py (UOM mismatch logging has
no effect on values and is omitted). -/
def apply_emissions_to_df (rows : List ConsRow) (fmap : FactorMapT) :
    List EmisRow :=
  rows.map (emis_row rows fmap)

/-! ## projections.py: aggregate_to_monthly -/

/-- One detail row entering `aggregate_to_monthly`. -/
structure DetailRow where
  date : MDate
  costcentre : String
  description : String
  quantity : ℚ
  scope1_tCO2e : ℚ
  scope2_tCO2e : ℚ
  scope3_tCO2e : ℚ
deriving DecidableEq

/-- One row of the monthly summary. -/
structure MonthRow where
  date : MDate
  scope1_tCO2e : ℚ
  scope2_tCO2e : ℚ
  scope3_tCO2e : ℚ
  rom_t : ℚ
  site_electricity_kwh : ℚ
  grid_electricity_kwh : ℚ
deriving DecidableEq

def GRID_SITE_ELEC_DESCRIPTION : String := "Site electricity"
def GRID_GRID_ELEC_DESCRIPTION : String := "Grid electricity"

/-- The ROM-tonnage row mask of `aggregate_to_monthly`. -/
def rom_mask (r : DetailRow) : Bool :=
  r.costcentre == "ROM" && containsCaseless r.description "Ore"

/-- Insert a date into an ascending list, dropping duplicates. -/
def insertDate (d : MDate) : List MDate → List MDate
  | [] => [d]
  | x :: xs =>
    if d.ltB x then d :: x :: xs
    else if d = x then x :: xs
    else x :: insertDate d xs

/-- The ascending distinct dates of a list (pandas `groupby` key order). -/
def sortedUniqueDates (l : List MDate) : List MDate := l.foldr insertDate []

/-- Sum of the quantities of the rows of a month passing a mask. -/
def qty_sum (rows : List DetailRow) (mask : DetailRow → Bool) (d : MDate) : ℚ :=
  ((rows.filter (fun r => mask r && r.date == d)).map DetailRow.quantity).sum

/-- `aggregate_to_monthly` from projections.py: one output row per distinct
input date; left-merge misses are NaN-filled to zero, which coincides with
the empty sums here. -/
def aggregate_to_monthly (rows : List DetailRow) : List MonthRow :=
  (sortedUniqueDates (rows.map DetailRow.date)).map (fun d =>
    { date := d
      scope1_tCO2e := ((rows.filter (fun r => r.date == d)).map DetailRow.scope1_tCO2e).sum
      scope2_tCO2e := ((rows.filter (fun r => r.date == d)).map DetailRow.scope2_tCO2e).sum
      scope3_tCO2e := ((rows.filter (fun r => r.date == d)).map DetailRow.scope3_tCO2e).sum
      rom_t := qty_sum rows rom_mask d
      site_electricity_kwh :=
        qty_sum rows (fun r => r.description == GRID_SITE_ELEC_DESCRIPTION) d
      grid_electricity_kwh :=
        qty_sum rows (fun r => r.description == GRID_GRID_ELEC_DESCRIPTION) d })

/-! ## projections.py: calculate_safeguard_metrics -/

/-- One row of the safeguard output table (the `Exit_FY` reporting column,
used by no calculation, is not modelled). -/
structure SafeguardRow where
  date : MDate
  scope1_tCO2e : ℚ
  scope2_tCO2e : ℚ
  scope3_tCO2e : ℚ
  rom_t : ℚ
  site_electricity_kwh : ℚ
  grid_electricity_kwh : ℚ
  phase : String
  emission_intensity : ℚ
  baseline : ℚ
  baseline_unfloored : ℚ
  baseline_intensity : ℚ
  intensity_excess : ℚ
  in_safeguard : Bool
  smc_phase : String
  smc_monthly : ℚ
  smc_cumulative : ℚ
deriving DecidableEq

/-- The date filter at the head of `calculate_safeguard_metrics`:
keep months from the Safeguard Mechanism start onwards. -/
def sg_filter (monthly : List MonthRow) : List MonthRow :=
  monthly.filter (fun r => SAFEGUARD_START_DATE.leB r.date)

/-- The rows of a fiscal year (`result[result._fy == fy]`). -/
def fy_group (result : List MonthRow) (fy : ℤ) : List MonthRow :=
  result.filter (fun r => date_to_fy r.date == fy)

/-- Does any row fall in the fiscal year? -/
def fy_present (result : List MonthRow) (fy : ℤ) : Bool :=
  result.any (fun r => date_to_fy r.date == fy)

/-- Annual Scope-1 total per fiscal year (`fy_scope1`). -/
def fy_s1_sum (result : List MonthRow) (fy : ℤ) : ℚ :=
  ((fy_group result fy).map MonthRow.scope1_tCO2e).sum

/-- Annual ROM tonnes per fiscal year (`fy_rom`). -/
def fy_rom_sum (result : List MonthRow) (fy : ℤ) : ℚ :=
  ((fy_group result fy).map MonthRow.rom_t).sum

/-- Annual site electricity in MWh (`fy_site_mwh`, kWh summed then /1000). -/
def fy_site_mwh (result : List MonthRow) (fy : ℤ) : ℚ :=
  ((fy_group result fy).map MonthRow.site_electricity_kwh).sum / 1000

/-- `(fy_baselines[fy], fy_baselines_unfloored[fy])`. -/
def fy_baseline_pair (result : List MonthRow) (fsei_rom fsei_elec : ℚ)
    (decline_rate_phase2 : Option ℚ) (fy : ℤ) : ℚ × ℚ :=
  calculate_annual_baseline fy (fy_rom_sum result fy) (fy_site_mwh result fy)
    fsei_rom fsei_elec decline_rate_phase2

/-- The production weight of a month for baseline distribution:
`ROM_t × HybridEI_ROM + (site_kWh/1000) × HybridEI_elec`. -/
def month_weight (fsei_rom fsei_elec : ℚ) (r : MonthRow) : ℚ :=
  let hy := calculate_hybrid_ei (date_to_fy r.date) fsei_rom fsei_elec
  r.rom_t * hy.1 + (r.site_electricity_kwh / 1000) * hy.2

/-- The total production weight of a fiscal year (`total_weight`). -/
def total_weight (fsei_rom fsei_elec : ℚ) (result : List MonthRow) (fy : ℤ) : ℚ :=
  ((fy_group result fy).map (month_weight fsei_rom fsei_elec)).sum

/-- Number of months of the fiscal year in the table (`n_months`). -/
def n_months (result : List MonthRow) (fy : ℤ) : ℕ := (fy_group result fy).length

/-- Monthly share of the annual floored baseline (`Baseline` column). -/
def baseline_month (fsei_rom fsei_elec : ℚ) (decline_rate_phase2 : Option ℚ)
    (result : List MonthRow) (r : MonthRow) : ℚ :=
  let fy := date_to_fy r.date
  let annual := (fy_baseline_pair result fsei_rom fsei_elec decline_rate_phase2 fy).1
  let tw := total_weight fsei_rom fsei_elec result fy
  if 0 < tw then (month_weight fsei_rom fsei_elec r / tw) * annual
  else annual / (n_months result fy : ℚ)

/-- Monthly share of the annual unfloored baseline (`Baseline_Unfloored`). -/
def baseline_unfl_month (fsei_rom fsei_elec : ℚ) (decline_rate_phase2 : Option ℚ)
    (result : List MonthRow) (r : MonthRow) : ℚ :=
  let fy := date_to_fy r.date
  let annual := (fy_baseline_pair result fsei_rom fsei_elec decline_rate_phase2 fy).2
  let tw := total_weight fsei_rom fsei_elec result fy
  if 0 < tw then (month_weight fsei_rom fsei_elec r / tw) * annual
  else annual / (n_months result fy : ℚ)

/-- Is the fiscal year "covered" for the s58B lookback: present in the data
with annual Scope 1 at/above the threshold. -/
def covered_fy (result : List MonthRow) (fy : ℤ) : Bool :=
  fy_present result fy && decide (SAFEGUARD_THRESHOLD ≤ fy_s1_sum result fy)

/-- `range(fy - S58B_LOOKBACK, fy)`. -/
def lookback_fys (fy : ℤ) : List ℤ :=
  (List.range S58B_LOOKBACK).map (fun i => fy - (S58B_LOOKBACK : ℤ) + (i : ℤ))

/-- `covered_count` of the previous `S58B_LOOKBACK` fiscal years. -/
def covered_count (result : List MonthRow) (fy : ℤ) : ℕ :=
  ((lookback_fys fy).filter (covered_fy result)).length

/-- `any(y in covered_fys for y in range(2024, fy))`. -/
def any_prior_coverage (result : List MonthRow) (fy : ℤ) : Bool :=
  (((List.range (fy - 2024).toNat).map (fun i => (2024 : ℤ) + (i : ℤ)))).any
    (covered_fy result)

/-- The per-fiscal-year SMC phase assignment of
`calculate_safeguard_metrics` (the `fy_phase` dict). -/
def fy_phase (result : List MonthRow) (credit_start_date : MDate) (fy : ℤ) : String :=
  if (fy_start_date fy).ltB credit_start_date then "Pre-Safeguard"
  else if SAFEGUARD_THRESHOLD ≤ fy_s1_sum result fy then "Safeguard"
  else if S58B_EARLIEST_FY ≤ fy ∧ S58B_MIN_COVERED ≤ covered_count result fy then
    "Opt-In"
  else if any_prior_coverage result fy ∧ S58B_EARLIEST_FY ≤ fy ∧
      covered_count result fy < S58B_MIN_COVERED then "Exited"
  else "Gap"

/-- Raw SMC per s56(4): unfloored share minus Scope 1 from the credit start
date onwards, zero before. -/
def smc_raw (fsei_rom fsei_elec : ℚ) (decline_rate_phase2 : Option ℚ)
    (credit_start_date : MDate) (result : List MonthRow) (r : MonthRow) : ℚ :=
  if credit_start_date.leB r.date then
    baseline_unfl_month fsei_rom fsei_elec decline_rate_phase2 result r - r.scope1_tCO2e
  else 0

/-- Monthly SMC after the phase rules: `Gap` and `Exited` force zero,
`Opt-In` floors at zero, other phases keep the raw value. -/
def smc_month_val (fsei_rom fsei_elec : ℚ) (decline_rate_phase2 : Option ℚ)
    (credit_start_date : MDate) (result : List MonthRow) (r : MonthRow) : ℚ :=
  let p := fy_phase result credit_start_date (date_to_fy r.date)
  let raw := smc_raw fsei_rom fsei_elec decline_rate_phase2 credit_start_date result r
  if p = "Gap" then 0
  else if p = "Opt-In" then (if raw < 0 then 0 else raw)
  else if p = "Exited" then 0
  else raw

/-- Running sums with accumulator (`Series.cumsum`). -/
def cumsumAux (acc : ℚ) : List ℚ → List ℚ
  | [] => []
  | x :: xs => (acc + x) :: cumsumAux (acc + x) xs

def cumsum (l : List ℚ) : List ℚ := cumsumAux 0 l

/-- All columns of one output row except the cumulative SMC. -/
def safeguard_row (fsei_rom fsei_elec : ℚ) (credit_start_date : MDate)
    (end_mining_date end_processing_date end_rehabilitation_date : MDate)
    (decline_rate_phase2 : Option ℚ) (result : List MonthRow) (r : MonthRow)
    (cum : ℚ) : SafeguardRow :=
  { date := r.date
    scope1_tCO2e := r.scope1_tCO2e
    scope2_tCO2e := r.scope2_tCO2e
    scope3_tCO2e := r.scope3_tCO2e
    rom_t := r.rom_t
    site_electricity_kwh := r.site_electricity_kwh
    grid_electricity_kwh := r.grid_electricity_kwh
    phase := get_phase_name r.date end_mining_date end_processing_date
      end_rehabilitation_date (some DEFAULT_GRID_CONNECTION_DATE)
    emission_intensity := if 0 < r.rom_t then r.scope1_tCO2e / r.rom_t else 0
    baseline := baseline_month fsei_rom fsei_elec decline_rate_phase2 result r
    baseline_unfloored :=
      baseline_unfl_month fsei_rom fsei_elec decline_rate_phase2 result r
    baseline_intensity :=
      if 0 < r.rom_t then
        baseline_month fsei_rom fsei_elec decline_rate_phase2 result r / r.rom_t
      else 0
    intensity_excess :=
      (if 0 < r.rom_t then r.scope1_tCO2e / r.rom_t else 0) -
      (if 0 < r.rom_t then
        baseline_month fsei_rom fsei_elec decline_rate_phase2 result r / r.rom_t
      else 0)
    in_safeguard :=
      decide (SAFEGUARD_THRESHOLD ≤ fy_s1_sum result (date_to_fy r.date))
    smc_phase := fy_phase result credit_start_date (date_to_fy r.date)
    smc_monthly := smc_month_val fsei_rom fsei_elec decline_rate_phase2
      credit_start_date result r
    smc_cumulative := cum }

/-- `calculate_safeguard_metrics` from projections.py: keep months from the
Safeguard start onwards, enrich each with baseline/SMC columns, and attach
the running SMC sum in row order. -/
def calculate_safeguard_metrics (monthly : List MonthRow)
    (fsei_rom fsei_elec : ℚ) (credit_start_date : MDate)
    (end_mining_date end_processing_date end_rehabilitation_date : MDate)
    (decline_rate_phase2 : Option ℚ) : List SafeguardRow :=
  let result := sg_filter monthly
  List.zipWith
    (safeguard_row fsei_rom fsei_elec credit_start_date end_mining_date
      end_processing_date end_rehabilitation_date decline_rate_phase2 result)
    result
    (cumsum (result.map (smc_month_val fsei_rom fsei_elec decline_rate_phase2
      credit_start_date result)))


/-! ## Concrete example inputs used by the witness theorems -/

def exC6rows : List ConsRow := [⟨"Diesel usage", some "Diesel oil", "kL", 2, 2025⟩]

def exC6fmap : FactorMapT :=
  [(2025, [("Diesel oil", ⟨2700, 0, 130, 38.6, "kL"⟩)])]

def exNGA : List NGARow :=
  [⟨2025, "Diesel oil-Cars and light commercial vehicles", 1, none, 2681, "kg CO2-e/kL", some 38.6, "GJ/kL"⟩,
   ⟨2025, "Diesel oil", 1, none, 2700, "kg CO2-e/kL", some 38.6, "GJ/kL"⟩,
   ⟨2025, "Diesel oil", 3, none, 130, "kg CO2-e/kL", some 38.6, "GJ/kL"⟩,
   ⟨2025, "Liquefied petroleum gas (LPG)", 1, none, 1521, "kg CO2-e/kL", some 25.7, "GJ/kL"⟩,
   ⟨2025, "Petroleum based oils", 1, none, 1369, "kg CO2-e/kL", some 38.8, "GJ/kL"⟩,
   ⟨2025, "Petroleum based greases", 1, none, 137, "kg CO2-e/kL", some 3.9, "GJ/kL"⟩,
   ⟨2025, "Gaseous fossil fuels other than those mentioned in the items above", 1, none, 0.0393, "kg CO2-e/m3", some 0.0011, "GJ/m3"⟩,
   ⟨2025, "Grid electricity", 2, some "QLD", 0.71, "kg CO2-e/kWh", none, ""⟩,
   ⟨2025, "Grid electricity", 3, some "QLD", 0.09, "kg CO2-e/kWh", none, ""⟩]

def exC9rows : List DetailRow :=
  [⟨⟨2023, 7, 1⟩, "ROM", "Ore mined", 1000, 5, 0, 0⟩,
   ⟨⟨2023, 9, 1⟩, "Power Station", "Diesel", 20, 54, 0, 1⟩]

def exC9out2 : MonthRow := ⟨⟨2023, 9, 1⟩, 54, 0, 1, 0, 0, 0⟩

def exMonths : List MonthRow :=
  [⟨⟨2023, 8, 1⟩, 120000, 10, 5, 1000, 2000, 0⟩,
   ⟨⟨2024, 8, 1⟩, 50000, 10, 5, 1000, 2000, 0⟩,
   ⟨⟨2025, 8, 1⟩, 130000, 10, 5, 1000, 2000, 0⟩]

def exZeroProd : List MonthRow :=
  [⟨⟨2023, 8, 1⟩, 120000, 0, 0, 0, 0, 0⟩]

def exPreMonths : List MonthRow :=
  [⟨⟨2022, 3, 1⟩, 10, 0, 0, 0, 0, 0⟩]

/-- The single output row of `calculate_safeguard_metrics` on `exZeroProd`
at the default parameters. -/
def exZeroOut : SafeguardRow :=
  ⟨⟨2023, 8, 1⟩, 120000, 0, 0, 0, 0, 0, "Mining", 0, 100000, 0, 0, 0, true,
   "Safeguard", -120000, -120000⟩

/-- C6: for every consumption row whose fuel tag resolves to a factor-map
bundle, `apply_emissions_to_df` sets `Scope1_tCO2e = Quantity * s1 / 1000`,
and likewise Scope 2 and Scope 3 with the factor of that scope (a zero factor
yields a zero contribution), and `Energy_GJ = Quantity * energy`, with no
rounding. -/
theorem C6_emissions_formula (rows : List ConsRow) (fmap : FactorMapT)
    (i : ℕ) (hi : i < rows.length) (yf : FactorBundle)
    (hb : row_bundle rows fmap rows[i] = some yf) :
    ∃ ho : i < (apply_emissions_to_df rows fmap).length,
      (apply_emissions_to_df rows fmap)[i].row = rows[i] ∧
      (apply_emissions_to_df rows fmap)[i].scope1_tCO2e =
        rows[i].quantity * yf.s1 / 1000 ∧
      (apply_emissions_to_df rows fmap)[i].scope2_tCO2e =
        rows[i].quantity * yf.s2 / 1000 ∧
      (apply_emissions_to_df rows fmap)[i].scope3_tCO2e =
        rows[i].quantity * yf.s3 / 1000 ∧
      (apply_emissions_to_df rows fmap)[i].energy_GJ =
        rows[i].quantity * yf.energy := by
  have hlen : (apply_emissions_to_df rows fmap).length = rows.length :=
    List.length_map _ _
  refine ⟨by omega, ?_, ?_, ?_, ?_, ?_⟩ <;>
    simp only [apply_emissions_to_df, List.getElem_map, emis_row, hb]
  · by_cases h1 : yf.s1 = 0
    · simp [h1]
    · simp [h1]
  · by_cases h2 : yf.s2 = 0
    · simp [h2]
    · simp [h2]
  · by_cases h3 : yf.s3 = 0
    · simp [h3]
    · simp [h3]
  · by_cases h4 : yf.energy = 0
    · simp [h4]
    · simp [h4]

attribute [local semireducible] Rat.ofScientific Rat.mul Rat.inv Rat.add Rat.sub

theorem erc_eq_ref (fy : ℤ) : calculate_erc_for_fy fy none = erc_ref fy := by
  unfold calculate_erc_for_fy erc_ref DECLINE_PHASE1_START DECLINE_PHASE1_END DECLINE_PHASE2_END DECLINE_RATE_PHASE1 DECLINE_RATE_PHASE2
  split_ifs with h1 h2 h3
  all_goals first
    | rfl
    | (congr 1; push_cast; try norm_num; try ring)

theorem erc_ref_antitone (a b : ℤ) (ha : 2024 ≤ a) (hab : a ≤ b) :
    erc_ref b ≤ erc_ref a := by
  have habq : (a:ℚ) ≤ (b:ℚ) := by exact_mod_cast hab
  have hbnlt : ¬ (b < 2024) := by omega
  have hanlt : ¬ (a < 2024) := by omega
  unfold erc_ref
  rw [if_neg hbnlt, if_neg hanlt]
  by_cases hb30 : b ≤ 2030
  · have ha30 : a ≤ 2030 := le_trans hab hb30
    rw [if_pos hb30, if_pos ha30]
    apply max_le_max _ le_rfl
    linarith
  · rw [if_neg hb30]
    by_cases ha30 : a ≤ 2030
    · rw [if_pos ha30]
      have hb31 : (2031:ℚ) ≤ (b:ℚ) := by exact_mod_cast (by omega : (2031:ℤ) ≤ b)
      have ha30q : (a:ℚ) ≤ 2030 := by exact_mod_cast ha30
      by_cases hb50 : b ≤ 2050
      · rw [if_pos hb50]
        apply max_le_max _ le_rfl
        linarith
      · rw [if_neg hb50]
        have hz : max ((0.657:ℚ) - ((2050:ℚ) - 2030) * 0.03285) 0 = 0 := by norm_num
        rw [hz]
        exact le_max_right _ _
    · rw [if_neg ha30]
      have ha31 : (2031:ℚ) ≤ (a:ℚ) := by exact_mod_cast (by omega : (2031:ℤ) ≤ a)
      by_cases ha50 : a ≤ 2050
      · rw [if_pos ha50]
        by_cases hb50 : b ≤ 2050
        · rw [if_pos hb50]
          apply max_le_max _ le_rfl
          linarith
        · rw [if_neg hb50]
          have ha50q : (a:ℚ) ≤ 2050 := by exact_mod_cast ha50
          apply max_le_max _ le_rfl
          linarith
      · rw [if_neg ha50, if_neg (by omega : ¬ (b ≤ 2050))]

/-- C1: `calculate_erc_for_fy` with the default phase-2 rate equals the
piecewise reference `erc_ref` (1.0 before FY2024; a 4.9 %/yr linear decline
with floor 0 on FY2024..FY2030; a 3.285 %/yr linear decline from 0.657 on
FY2031..FY2050; frozen at the FY2050 value afterwards), takes the key values
0.951, 0.902, 0.657 and 0.62415, and is monotonically non-increasing from
FY2024 on. -/
theorem C1_erc_piecewise_and_monotone :
    (∀ fy : ℤ, calculate_erc_for_fy fy none = erc_ref fy) ∧
    (∀ fy : ℤ, fy < 2024 → calculate_erc_for_fy fy none = 1) ∧
    calculate_erc_for_fy 2024 none = 0.951 ∧
    calculate_erc_for_fy 2025 none = 0.902 ∧
    calculate_erc_for_fy 2030 none = 0.657 ∧
    calculate_erc_for_fy 2031 none = 0.62415 ∧
    (∀ fy : ℤ, 2050 < fy → calculate_erc_for_fy fy none = calculate_erc_for_fy 2050 none) ∧
    (∀ a b : ℤ, 2024 ≤ a → a ≤ b →
      calculate_erc_for_fy b none ≤ calculate_erc_for_fy a none) := by
  refine ⟨erc_eq_ref, ?_, by decide, by decide, by decide, by decide, ?_, ?_⟩
  · intro fy h
    unfold calculate_erc_for_fy DECLINE_PHASE1_START
    rw [if_pos (by omega : fy < 2024)]
    norm_num
  · intro fy h
    rw [erc_eq_ref, erc_eq_ref]
    unfold erc_ref
    rw [if_neg (by omega : ¬ (fy < 2024)), if_neg (by omega : ¬ (fy ≤ 2030)),
      if_neg (by omega : ¬ (fy ≤ 2050))]
    norm_num
  · intro a b ha hab
    rw [erc_eq_ref, erc_eq_ref]
    exact erc_ref_antitone a b ha hab

theorem C1_witness :
    ((-5 : ℤ) < 2024 ∧ calculate_erc_for_fy (-5) none = 1) ∧
    (2050 < (2055 : ℤ) ∧ calculate_erc_for_fy 2055 none = calculate_erc_for_fy 2050 none) ∧
    (2024 ≤ (2024 : ℤ) ∧ (2024 : ℤ) ≤ 2031 ∧
      calculate_erc_for_fy 2031 none ≤ calculate_erc_for_fy 2024 none) :=
  ⟨⟨by decide, C1_erc_piecewise_and_monotone.2.1 (-5) (by decide)⟩,
   ⟨by decide, C1_erc_piecewise_and_monotone.2.2.2.2.2.2.1 2055 (by decide)⟩,
   ⟨by decide, by decide,
    C1_erc_piecewise_and_monotone.2.2.2.2.2.2.2 2024 2031 (by decide) (by decide)⟩⟩

/-- C5: `calculate_annual_baseline` returns `(floored, unfloored)` with
`unfloored = ERC(fy) * (HybridEI_ROM * rom_t + HybridEI_elec * site_mwh)` and
`floored = max unfloored 100000`; the floored baseline is always at least the
100,000 tCO2-e minimum-baseline floor, while for some inputs the unfloored
baseline lies below it. -/
theorem C5_baseline_floor :
    (∀ (fy : ℤ) (rom_t site_mwh fsei_rom fsei_elec : ℚ) (drp2 : Option ℚ),
      0 ≤ rom_t → 0 ≤ site_mwh →
      (calculate_annual_baseline fy rom_t site_mwh fsei_rom fsei_elec drp2).2 =
        calculate_erc_for_fy fy drp2 *
          ((calculate_hybrid_ei fy fsei_rom fsei_elec).1 * rom_t +
           (calculate_hybrid_ei fy fsei_rom fsei_elec).2 * site_mwh) ∧
      (calculate_annual_baseline fy rom_t site_mwh fsei_rom fsei_elec drp2).1 =
        max (calculate_annual_baseline fy rom_t site_mwh fsei_rom fsei_elec drp2).2
          SAFEGUARD_MINIMUM_BASELINE ∧
      SAFEGUARD_MINIMUM_BASELINE ≤
        (calculate_annual_baseline fy rom_t site_mwh fsei_rom fsei_elec drp2).1) ∧
    SAFEGUARD_MINIMUM_BASELINE = 100000 ∧
    (∃ (fy : ℤ) (rom_t site_mwh fsei_rom fsei_elec : ℚ) (drp2 : Option ℚ),
      0 ≤ rom_t ∧ 0 ≤ site_mwh ∧
      (calculate_annual_baseline fy rom_t site_mwh fsei_rom fsei_elec drp2).2 <
        SAFEGUARD_MINIMUM_BASELINE) := by
  refine ⟨?_, rfl, 2024, 0, 0, 0, 0, none, le_rfl, le_rfl, by decide⟩
  intro fy rom site fr fe drp2 _ _
  exact ⟨rfl, rfl, le_max_right _ _⟩

theorem C5_witness :
    (0:ℚ) ≤ 1000 ∧ (0:ℚ) ≤ 50 ∧
    ((calculate_annual_baseline 2024 1000 50 0.0177 0.9081 none).2 =
      calculate_erc_for_fy 2024 none *
        ((calculate_hybrid_ei 2024 0.0177 0.9081).1 * 1000 +
         (calculate_hybrid_ei 2024 0.0177 0.9081).2 * 50) ∧
     (calculate_annual_baseline 2024 1000 50 0.0177 0.9081 none).1 =
      max (calculate_annual_baseline 2024 1000 50 0.0177 0.9081 none).2
        SAFEGUARD_MINIMUM_BASELINE ∧
     SAFEGUARD_MINIMUM_BASELINE ≤
      (calculate_annual_baseline 2024 1000 50 0.0177 0.9081 none).1) :=
  ⟨by decide, by decide,
   C5_baseline_floor.1 2024 1000 50 0.0177 0.9081 none (by decide) (by decide)⟩

theorem build_fuel_factors_missing (df : List NGARow) (year : ℤ) :
    ∀ ps : List String, (∃ c ∈ ps, match_fuel_factor df year c 1 "" = none) →
    ∃ c ∈ ps, match_fuel_factor df year c 1 "" = none ∧
      build_fuel_factors df year ps = .error (scope1_missing_msg c year) := by
  intro ps
  induction ps with
  | nil => rintro ⟨c, hc, _⟩; exact absurd hc (List.not_mem_nil c)
  | cons p ps ih =>
    rintro ⟨c, hc, hm⟩
    rcases hE : match_fuel_factor df year p 1 "" with _ | s1
    · exact ⟨p, List.mem_cons_self _ _, hE, by simp [build_fuel_factors, hE]⟩
    · have hcps : c ∈ ps := by
        rcases List.mem_cons.mp hc with h | h
        · subst h; rw [hE] at hm; exact absurd hm (by simp)
        · exact h
      obtain ⟨c2, hc2, hm2, herr⟩ := ih ⟨c, hcps, hm⟩
      refine ⟨c2, List.mem_cons_of_mem _ hc2, hm2, ?_⟩
      simp only [build_fuel_factors, hE, herr]

theorem build_fuel_factors_ok (df : List NGARow) (year : ℤ) :
    ∀ (ps : List String) (entry : List (String × FactorBundle)),
    build_fuel_factors df year ps = .ok entry →
    ∀ c ∈ ps, ∃ rec, match_fuel_factor df year c 1 "" = some rec ∧
      ∃ b, (c, b) ∈ entry ∧ b.s1 = rec.ef_kgCO2e_per_unit ∧
        (match_fuel_factor df year c 3 "" = none → b.s3 = 0) := by
  intro ps
  induction ps with
  | nil => intro entry _ c hc; exact absurd hc (List.not_mem_nil c)
  | cons p ps ih =>
    intro entry hok c hc
    rcases hE : match_fuel_factor df year p 1 "" with _ | s1
    · simp [build_fuel_factors, hE] at hok
    · rcases hR : build_fuel_factors df year ps with e | rest
      · simp [build_fuel_factors, hE, hR] at hok
      · simp only [build_fuel_factors, hE, hR] at hok
        have hentry := (Except.ok.injEq _ _).mp hok.symm
        subst hentry
        rcases List.mem_cons.mp hc with h | h
        · subst h
          refine ⟨s1, hE, _, List.mem_cons_self _ _, ?_, ?_⟩
          · rfl
          · intro h3
            simp [h3]
        · obtain ⟨rec, hrec, b, hb, hs1, hs3⟩ := ih rest hR c h
          exact ⟨rec, hrec, b, List.mem_cons_of_mem _ hb, hs1, hs3⟩

theorem build_year_entry_ok (df : List NGARow) (state : String) (year : ℤ)
    (entry : List (String × FactorBundle))
    (h : build_year_entry df state year = .ok entry) :
    ∃ fuels, build_fuel_factors df year FUEL_PREFIXES = .ok fuels ∧
      ∀ pb : String × FactorBundle, pb ∈ fuels → pb ∈ entry := by
  rcases hF : build_fuel_factors df year FUEL_PREFIXES with e | fuels
  · simp [build_year_entry, hF] at h
  · rcases hS : get_electricity_factor df year state 2 with _ | s2
    · simp [build_year_entry, hF, hS] at h
    · simp only [build_year_entry, hF, hS] at h
      have hentry := (Except.ok.injEq _ _).mp h.symm
      subst hentry
      exact ⟨fuels, rfl, fun pb hpb => List.mem_append_left _ hpb⟩

theorem build_year_factor_map_aux (df : List NGARow) (state : String) :
    ∀ (years : List ℤ) (acc m : FactorMapT),
    List.foldlM (fun (acc : FactorMapT) (year : ℤ) =>
      (match build_year_entry df state year with
      | .error e => Except.error e
      | .ok entry => Except.ok (acc ++ [(year, entry)]) : Except String FactorMapT))
      acc years = Except.ok m →
    (∀ p ∈ acc, p ∈ m) ∧
    ∀ y ∈ years, ∃ entry, build_year_entry df state y = .ok entry ∧ (y, entry) ∈ m := by
  intro years
  induction years with
  | nil =>
    intro acc m h
    simp only [List.foldlM_nil] at h
    have hacc : acc = m := by
      have := (Except.ok.injEq acc m).mp h
      exact this
    subst hacc
    exact ⟨fun p hp => hp, fun y hy => absurd hy (List.not_mem_nil y)⟩
  | cons y ys ih =>
    intro acc m h
    rw [List.foldlM_cons] at h
    rcases hE : build_year_entry df state y with e | entry
    · rw [hE] at h
      simp [bind, Except.bind] at h
    · rw [hE] at h
      simp only [bind, Except.bind] at h
      obtain ⟨hacc, hys⟩ := ih (acc ++ [(y, entry)]) m h
      refine ⟨fun p hp => hacc p (List.mem_append_left _ hp), ?_⟩
      intro z hz
      rcases List.mem_cons.mp hz with hzy | hzys
      · subst hzy
        exact ⟨entry, hE, hacc _ (List.mem_append_right _ (List.mem_singleton.mpr rfl))⟩
      · exact hys z hzys

/-- C7: in the factor-map builder, absence of a Scope-1 factor for a
requested (year, category) pair makes `build_fuel_factors` raise an error
naming a missing category and the year, and makes `build_year_factor_map`
fail rather than return a map; on success the Scope-1 factor of every bundle
comes from the store (never a silent zero), while a missing Scope-3 factor
degrades to a zero factor instead of failing. -/
theorem C7_factor_map_failure_semantics :
    (∀ (df : List NGARow) (year : ℤ) (ps : List String),
      (∃ c ∈ ps, match_fuel_factor df year c 1 "" = none) →
      ∃ c ∈ ps, match_fuel_factor df year c 1 "" = none ∧
        build_fuel_factors df year ps = .error (scope1_missing_msg c year)) ∧
    (∀ (df : List NGARow) (years : List ℤ) (state : String) (y : ℤ) (c : String),
      y ∈ years → c ∈ FUEL_PREFIXES → match_fuel_factor df y c 1 "" = none →
      ∃ msg, build_year_factor_map df years state = .error msg) ∧
    (∀ (df : List NGARow) (years : List ℤ) (state : String) (m : FactorMapT),
      build_year_factor_map df years state = .ok m →
      ∀ y ∈ years, ∃ entry, (y, entry) ∈ m ∧
        ∀ c ∈ FUEL_PREFIXES, ∃ rec,
          match_fuel_factor df y c 1 "" = some rec ∧
          ∃ b, (c, b) ∈ entry ∧ b.s1 = rec.ef_kgCO2e_per_unit ∧
            (match_fuel_factor df y c 3 "" = none → b.s3 = 0)) := by
  refine ⟨build_fuel_factors_missing, ?_, ?_⟩
  · intro df years state y c hy hc hnone
    rcases hB : build_year_factor_map df years state with e | m
    · exact ⟨e, rfl⟩
    · exfalso
      unfold build_year_factor_map at hB
      obtain ⟨_, hys⟩ := build_year_factor_map_aux df state years [] m hB
      obtain ⟨entry, hE, _⟩ := hys y hy
      obtain ⟨fuels, hF, _⟩ := build_year_entry_ok df state y entry hE
      obtain ⟨rec, hrec, _⟩ := build_fuel_factors_ok df y _ fuels hF c hc
      rw [hnone] at hrec
      exact Option.noConfusion hrec
  · intro df years state m hok y hy
    unfold build_year_factor_map at hok
    obtain ⟨_, hys⟩ := build_year_factor_map_aux df state years [] m hok
    obtain ⟨entry, hE, hmem⟩ := hys y hy
    obtain ⟨fuels, hF, hsub⟩ := build_year_entry_ok df state y entry hE
    refine ⟨entry, hmem, ?_⟩
    intro c hc
    obtain ⟨rec, hrec, b, hb, hs1, hs3⟩ :=
      build_fuel_factors_ok df y FUEL_PREFIXES fuels hF c hc
    exact ⟨rec, hrec, b, hsub _ hb, hs1, hs3⟩

theorem C7_witness :
    ("Diesel oil" ∈ FUEL_PREFIXES ∧
     match_fuel_factor ([] : List NGARow) 2025 "Diesel oil" 1 "" = none ∧
     (∃ msg, build_year_factor_map ([] : List NGARow) [2025] "QLD" = .error msg)) ∧
    (∃ c ∈ FUEL_PREFIXES, match_fuel_factor ([] : List NGARow) 2025 c 1 "" = none ∧
      build_fuel_factors ([] : List NGARow) 2025 FUEL_PREFIXES =
        .error (scope1_missing_msg c 2025)) ∧
    (∃ m, build_year_factor_map exNGA [2025] "QLD" = Except.ok m ∧
      ∃ entry, (2025, entry) ∈ m ∧
        ∃ b, ("Petroleum based greases", b) ∈ entry ∧ b.s3 = 0) := by
  refine ⟨⟨by decide, by decide,
    C7_factor_map_failure_semantics.2.1 [] [2025] "QLD" 2025 "Diesel oil"
      (by decide) (by decide) (by decide)⟩,
    C7_factor_map_failure_semantics.1 [] 2025 FUEL_PREFIXES
      ⟨"Diesel oil", by decide, by decide⟩, ?_⟩
  have hIsOk : (build_year_factor_map exNGA [2025] "QLD").isOk = true := by decide
  rcases hB : build_year_factor_map exNGA [2025] "QLD" with e | m
  · rw [hB] at hIsOk
    simp [Except.isOk, Except.toBool] at hIsOk
  · refine ⟨m, rfl, ?_⟩
    obtain ⟨entry, hmem, hall⟩ :=
      C7_factor_map_failure_semantics.2.2 exNGA [2025] "QLD" m hB 2025 (by decide)
    obtain ⟨rec, hrec, b, hbmem, hs1, hs3⟩ :=
      hall "Petroleum based greases" (by decide)
    exact ⟨entry, hmem, b, hbmem, hs3 (by decide)⟩

theorem insertByLen_mem (s x : String) (l : List String) :
    x ∈ insertByLen s l ↔ x = s ∨ x ∈ l := by
  induction l with
  | nil => simp [insertByLen]
  | cons t ts ih =>
    unfold insertByLen
    by_cases hle : s.length ≤ t.length
    · rw [if_pos hle]
      simp [List.mem_cons]
    · rw [if_neg hle]
      simp only [List.mem_cons, ih]
      tauto

theorem insertByLen_pairwise (s : String) (l : List String)
    (h : List.Pairwise (fun a b => a.length ≤ b.length) l) :
    List.Pairwise (fun a b => a.length ≤ b.length) (insertByLen s l) := by
  induction l with
  | nil => simp [insertByLen]
  | cons t ts ih =>
    rcases h with _ | ⟨ht, hts⟩
    unfold insertByLen
    by_cases hle : s.length ≤ t.length
    · rw [if_pos hle]
      exact List.Pairwise.cons
        (fun b hb => by
          rcases List.mem_cons.mp hb with rfl | hb2
          · exact hle
          · exact le_trans hle (ht b hb2))
        (List.Pairwise.cons ht hts)
    · rw [if_neg hle]
      refine List.Pairwise.cons ?_ (ih hts)
      intro b hb
      rcases (insertByLen_mem s b ts).mp hb with rfl | hb2
      · omega
      · exact ht b hb2

theorem sortByLen_pairwise (l : List String) :
    List.Pairwise (fun a b => a.length ≤ b.length) (sortByLen l) := by
  induction l with
  | nil => simp [sortByLen]
  | cons x xs ih => exact insertByLen_pairwise x (sortByLen xs) ih

theorem find?_sorted_min (p : String → Bool) :
    ∀ l : List String, List.Pairwise (fun a b => a.length ≤ b.length) l →
    ∀ x, l.find? p = some x →
    p x = true ∧ x ∈ l ∧ ∀ y ∈ l, p y = true → x.length ≤ y.length := by
  intro l
  induction l with
  | nil => intro _ x h; simp at h
  | cons a t ih =>
    intro hpw x hf
    rcases hpw with _ | ⟨ha, ht⟩
    by_cases hpa : p a = true
    · rw [List.find?_cons_of_pos _ hpa] at hf
      have hx : a = x := (Option.some.injEq _ _).mp hf
      subst hx
      refine ⟨hpa, List.mem_cons_self _ _, ?_⟩
      intro y hy hpy
      rcases List.mem_cons.mp hy with rfl | hy2
      · exact le_rfl
      · exact ha y hy2
    · rw [List.find?_cons_of_neg _ hpa] at hf
      obtain ⟨hpx, hxm, hmin⟩ := ih ht x hf
      refine ⟨hpx, List.mem_cons_of_mem _ hxm, ?_⟩
      intro y hy hpy
      rcases List.mem_cons.mp hy with rfl | hy2
      · exact absurd hpy hpa
      · exact hmin y hy2 hpy

theorem startswith_self (q : String) : startswith q q = true := by
  simp [startswith, List.isPrefixOf_iff_prefix]

theorem startswith_length_le (m q : String) (h : startswith m q = true) :
    q.length ≤ m.length := by
  simp only [startswith, List.isPrefixOf_iff_prefix] at h
  exact h.length_le

theorem fuel_names_for_pairwise (df : List NGARow) (year : ℤ) :
    List.Pairwise (fun a b => a.length ≤ b.length) (fuel_names_for df year) :=
  sortByLen_pairwise _

/-- C8: in the name resolution of the factor store, an exact stored match for
the query is chosen; otherwise a stored name having the query as a prefix and
of minimal length among such names is chosen; when no stored name matches the
lookup returns none, and `match_fuel_factor` then also returns none rather
than any default. -/
theorem C8_fuel_name_resolution :
    (∀ (df : List NGARow) (year : ℤ) (q : String),
      q ∈ fuel_names_for df year → _resolve_fuel_name df year q = some q) ∧
    (∀ (df : List NGARow) (year : ℤ) (q n : String),
      _resolve_fuel_name df year q = some n →
      startswith n q = true ∧ n ∈ fuel_names_for df year ∧
      ∀ m ∈ fuel_names_for df year, startswith m q = true → n.length ≤ m.length) ∧
    (∀ (df : List NGARow) (year : ℤ) (q : String),
      (_resolve_fuel_name df year q = none ↔
        ∀ m ∈ fuel_names_for df year, startswith m q = false)) ∧
    (∀ (df : List NGARow) (year y : ℤ) (q : String) (scope : ℤ) (state : String),
      _resolve_year df year = some y → _resolve_fuel_name df y q = none →
      match_fuel_factor df year q scope state = none) := by
  refine ⟨?_, ?_, ?_, ?_⟩
  · intro df year q hq
    unfold _resolve_fuel_name
    rw [if_pos hq]
  · intro df year q n hres
    unfold _resolve_fuel_name at hres
    by_cases hq : q ∈ fuel_names_for df year
    · rw [if_pos hq] at hres
      have hn : q = n := (Option.some.injEq _ _).mp hres
      subst hn
      refine ⟨startswith_self q, hq, ?_⟩
      intro m hm hsm
      exact startswith_length_le m q hsm
    · rw [if_neg hq] at hres
      exact find?_sorted_min _ _ (fuel_names_for_pairwise df year) n hres
  · intro df year q
    constructor
    · intro hres m hm
      unfold _resolve_fuel_name at hres
      by_cases hq : q ∈ fuel_names_for df year
      · rw [if_pos hq] at hres
        exact Option.noConfusion hres
      · rw [if_neg hq] at hres
        have := List.find?_eq_none.mp hres m hm
        simpa using this
    · intro hall
      unfold _resolve_fuel_name
      have hq : q ∉ fuel_names_for df year := by
        intro hq
        have := hall q hq
        rw [startswith_self q] at this
        exact Bool.noConfusion this
      rw [if_neg hq]
      exact List.find?_eq_none.mpr (fun m hm => by simp [hall m hm])
  · intro df year y q scope state hy hnone
    unfold match_fuel_factor
    rw [hy]
    simp [hnone]

theorem C8_witness :
    _resolve_fuel_name exNGA 2025 "Diesel oil" = some "Diesel oil" ∧
    (startswith "Gaseous fossil fuels other than those mentioned in the items above"
        "Gaseous fossil" = true ∧
      "Gaseous fossil fuels other than those mentioned in the items above" ∈
        fuel_names_for exNGA 2025) ∧
    _resolve_fuel_name exNGA 2025 "Zebra" = none ∧
    match_fuel_factor exNGA 2030 "Zebra" 1 "" = none := by
  refine ⟨C8_fuel_name_resolution.1 exNGA 2025 "Diesel oil" (by decide), ?_,
    (C8_fuel_name_resolution.2.2.1 exNGA 2025 "Zebra").mpr (by decide),
    C8_fuel_name_resolution.2.2.2 exNGA 2030 2025 "Zebra" 1 "" (by decide) (by decide)⟩
  have h := C8_fuel_name_resolution.2.1 exNGA 2025 "Gaseous fossil"
    "Gaseous fossil fuels other than those mentioned in the items above" (by decide)
  exact ⟨h.1, h.2.1⟩

theorem MDate.lt_trans_thm (a b c : MDate) (h1 : MDate.lt a b) (h2 : MDate.lt b c) :
    MDate.lt a c := by
  cases a; cases b; cases c
  simp only [MDate.lt] at h1 h2 ⊢
  omega

theorem MDate.lt_total_thm (a b : MDate) : MDate.lt a b ∨ a = b ∨ MDate.lt b a := by
  cases a; cases b
  simp only [MDate.lt, MDate.mk.injEq]
  omega

theorem MDate.ltB_iff (a b : MDate) : MDate.ltB a b = true ↔ MDate.lt a b := by
  simp [MDate.ltB]

theorem insertDate_mem (d x : MDate) (l : List MDate) :
    x ∈ insertDate d l ↔ x = d ∨ x ∈ l := by
  induction l with
  | nil => simp [insertDate]
  | cons y ys ih =>
    unfold insertDate
    by_cases h1 : d.ltB y
    · rw [if_pos h1]
      simp [List.mem_cons]
    · rw [if_neg h1]
      by_cases h2 : d = y
      · rw [if_pos h2]
        subst h2
        simp [List.mem_cons]
      · rw [if_neg h2]
        simp only [List.mem_cons, ih]
        tauto

theorem insertDate_sorted (d : MDate) (l : List MDate)
    (h : List.Pairwise MDate.lt l) :
    List.Pairwise MDate.lt (insertDate d l) := by
  induction l with
  | nil => simp [insertDate]
  | cons y ys ih =>
    rcases h with _ | ⟨hy, hys⟩
    unfold insertDate
    by_cases h1 : d.ltB y
    · rw [if_pos h1]
      have hdy : MDate.lt d y := (MDate.ltB_iff d y).mp h1
      exact List.Pairwise.cons
        (fun b hb => by
          rcases List.mem_cons.mp hb with rfl | hb2
          · exact hdy
          · exact MDate.lt_trans_thm _ _ _ hdy (hy b hb2))
        (List.Pairwise.cons hy hys)
    · rw [if_neg h1]
      by_cases h2 : d = y
      · rw [if_pos h2]
        exact List.Pairwise.cons hy hys
      · rw [if_neg h2]
        refine List.Pairwise.cons ?_ (ih hys)
        intro b hb
        rcases (insertDate_mem d b ys).mp hb with heq | hb2
        · rw [heq]
          rcases MDate.lt_total_thm d y with hlt | heq2 | hgt
          · exact absurd ((MDate.ltB_iff d y).mpr hlt) h1
          · exact absurd heq2 h2
          · exact hgt
        · exact hy b hb2

theorem sortedUniqueDates_sorted (l : List MDate) :
    List.Pairwise MDate.lt (sortedUniqueDates l) := by
  induction l with
  | nil => simp [sortedUniqueDates]
  | cons x xs ih => exact insertDate_sorted x (sortedUniqueDates xs) ih

theorem sortedUniqueDates_mem (l : List MDate) (x : MDate) :
    x ∈ sortedUniqueDates l ↔ x ∈ l := by
  induction l with
  | nil => simp [sortedUniqueDates]
  | cons y ys ih =>
    show x ∈ insertDate y (sortedUniqueDates ys) ↔ _
    rw [insertDate_mem]
    simp only [List.mem_cons, ih]

/-- C9 (amended): `aggregate_to_monthly` produces exactly one row per
distinct calendar month present in the input, in ascending date order, with
the production categories (ROM tonnes, site and grid electricity) computed as
sums that default to zero, never null, when a month has no matching rows.
Months of the horizon with no input rows at all yield no output row, so the
originally claimed "no gap months" property is refuted by `C9_counterexample`. -/
theorem C9_monthly_aggregation (rows : List DetailRow) :
    (aggregate_to_monthly rows).map MonthRow.date =
      sortedUniqueDates (rows.map DetailRow.date) ∧
    List.Pairwise MDate.lt ((aggregate_to_monthly rows).map MonthRow.date) ∧
    (∀ d : MDate, d ∈ (aggregate_to_monthly rows).map MonthRow.date ↔
      d ∈ rows.map DetailRow.date) ∧
    (∀ o ∈ aggregate_to_monthly rows,
      o.rom_t = qty_sum rows rom_mask o.date ∧
      o.site_electricity_kwh =
        qty_sum rows (fun r => r.description == GRID_SITE_ELEC_DESCRIPTION) o.date ∧
      o.grid_electricity_kwh =
        qty_sum rows (fun r => r.description == GRID_GRID_ELEC_DESCRIPTION) o.date ∧
      ((∀ r ∈ rows, r.date = o.date → rom_mask r = false) → o.rom_t = 0) ∧
      ((∀ r ∈ rows, r.date = o.date → r.description ≠ GRID_SITE_ELEC_DESCRIPTION) →
        o.site_electricity_kwh = 0) ∧
      ((∀ r ∈ rows, r.date = o.date → r.description ≠ GRID_GRID_ELEC_DESCRIPTION) →
        o.grid_electricity_kwh = 0)) := by
  have hmap : (aggregate_to_monthly rows).map MonthRow.date =
      sortedUniqueDates (rows.map DetailRow.date) := by
    unfold aggregate_to_monthly
    rw [List.map_map]
    exact List.map_id _
  refine ⟨hmap, by rw [hmap]; exact sortedUniqueDates_sorted _, ?_, ?_⟩
  · intro d
    rw [hmap]
    exact sortedUniqueDates_mem _ d
  · intro o ho
    unfold aggregate_to_monthly at ho
    obtain ⟨d, _, hd⟩ := List.mem_map.mp ho
    subst hd
    refine ⟨rfl, rfl, rfl, ?_, ?_, ?_⟩
    · intro hnone
      show qty_sum rows rom_mask d = 0
      unfold qty_sum
      rw [List.filter_eq_nil_iff.mpr]
      · rfl
      · intro r hr
        simp only [Bool.and_eq_true, beq_iff_eq, not_and]
        intro hmask hdate
        have := hnone r hr hdate
        rw [hmask] at this
        exact Bool.noConfusion this
    · intro hnone
      show qty_sum rows (fun r => r.description == GRID_SITE_ELEC_DESCRIPTION) d = 0
      unfold qty_sum
      rw [List.filter_eq_nil_iff.mpr]
      · rfl
      · intro r hr
        simp only [Bool.and_eq_true, beq_iff_eq, not_and]
        intro hdesc hdate
        exact absurd hdesc (hnone r hr hdate)
    · intro hnone
      show qty_sum rows (fun r => r.description == GRID_GRID_ELEC_DESCRIPTION) d = 0
      unfold qty_sum
      rw [List.filter_eq_nil_iff.mpr]
      · rfl
      · intro r hr
        simp only [Bool.and_eq_true, beq_iff_eq, not_and]
        intro hdesc hdate
        exact absurd hdesc (hnone r hr hdate)

/-- C9 counterexample: an input with detail rows for 2023-07 and 2023-09 but
none for 2023-08 yields no output row for the in-horizon month 2023-08. -/
theorem C9_counterexample :
    (aggregate_to_monthly exC9rows).map MonthRow.date =
      [⟨2023, 7, 1⟩, ⟨2023, 9, 1⟩] ∧
    MDate.lt ⟨2023, 7, 1⟩ ⟨2023, 8, 1⟩ ∧
    MDate.lt ⟨2023, 8, 1⟩ ⟨2023, 9, 1⟩ ∧
    ∀ o ∈ aggregate_to_monthly exC9rows, o.date ≠ ⟨2023, 8, 1⟩ := by
  decide

theorem cumsumAux_length (acc : ℚ) (l : List ℚ) : (cumsumAux acc l).length = l.length := by
  induction l generalizing acc with
  | nil => rfl
  | cons x xs ih => simp [cumsumAux, ih]

theorem cumsum_length (l : List ℚ) : (cumsum l).length = l.length := cumsumAux_length 0 l

theorem cumsumAux_getElem (l : List ℚ) :
    ∀ (acc : ℚ) (i : ℕ) (hi : i < (cumsumAux acc l).length),
    (cumsumAux acc l)[i] = acc + ((l.take (i + 1)).sum) := by
  induction l with
  | nil => intro acc i hi; simp [cumsumAux] at hi
  | cons x xs ih =>
    intro acc i hi
    match i with
    | 0 => simp [cumsumAux]
    | Nat.succ j =>
      have hj : j < (cumsumAux (acc + x) xs).length := by
        simp only [cumsumAux, List.length_cons] at hi
        simpa using Nat.lt_of_succ_lt_succ hi
      show (cumsumAux acc (x :: xs))[j + 1] = _
      have : (cumsumAux acc (x :: xs))[j + 1] = (cumsumAux (acc + x) xs)[j] := by
        simp [cumsumAux]
      rw [this, ih (acc + x) j hj]
      simp [List.take_succ_cons]
      ring

theorem cumsum_getElem (l : List ℚ) (i : ℕ) (hi : i < (cumsum l).length) :
    (cumsum l)[i] = (l.take (i + 1)).sum := by
  have := cumsumAux_getElem l 0 i hi
  simpa [cumsum] using this

theorem map_zipWith_left {α β γ δ : Type} (f : α → β → γ) (g : γ → δ) (h : α → δ)
    (H : ∀ a b, g (f a b) = h a) :
    ∀ (l1 : List α) (l2 : List β), l1.length = l2.length →
    (List.zipWith f l1 l2).map g = l1.map h := by
  intro l1
  induction l1 with
  | nil => intro l2 _; simp
  | cons a t ih =>
    intro l2 hlen
    match l2 with
    | [] => simp at hlen
    | b :: t2 =>
      simp only [List.zipWith_cons_cons, List.map_cons, H a b]
      rw [ih t2 (by simpa using hlen)]

theorem filter_map_zipWith_left {α β γ δ : Type} (f : α → β → γ) (q : γ → Bool)
    (p : α → Bool) (g : γ → δ) (h : α → δ)
    (Hq : ∀ a b, q (f a b) = p a) (Hg : ∀ a b, g (f a b) = h a) :
    ∀ (l1 : List α) (l2 : List β), l1.length = l2.length →
    ((List.zipWith f l1 l2).filter q).map g = (l1.filter p).map h := by
  intro l1
  induction l1 with
  | nil => intro l2 _; simp
  | cons a t ih =>
    intro l2 hlen
    match l2 with
    | [] => simp at hlen
    | b :: t2 =>
      rw [List.zipWith_cons_cons, List.filter_cons, List.filter_cons, Hq a b]
      by_cases hp : p a = true
      · rw [if_pos hp, if_pos hp, List.map_cons, List.map_cons, Hg a b,
          ih t2 (by simpa using hlen)]
      · rw [if_neg hp, if_neg hp]
        exact ih t2 (by simpa using hlen)

theorem mem_zipWith_exists {α β γ : Type} (f : α → β → γ) :
    ∀ (l1 : List α) (l2 : List β) (c : γ), c ∈ List.zipWith f l1 l2 →
    ∃ a b, a ∈ l1 ∧ b ∈ l2 ∧ c = f a b := by
  intro l1
  induction l1 with
  | nil => intro l2 c hc; simp at hc
  | cons a t ih =>
    intro l2 c hc
    match l2 with
    | [] => simp at hc
    | b :: t2 =>
      rcases List.mem_cons.mp hc with rfl | hc2
      · exact ⟨a, b, List.mem_cons_self _ _, List.mem_cons_self _ _, rfl⟩
      · obtain ⟨a2, b2, ha2, hb2, hc3⟩ := ih t2 c hc2
        exact ⟨a2, b2, List.mem_cons_of_mem _ ha2, List.mem_cons_of_mem _ hb2, hc3⟩

theorem fy_group_mem (result : List MonthRow) (fy : ℤ) (r : MonthRow)
    (hr : r ∈ fy_group result fy) : date_to_fy r.date = fy := by
  have := List.mem_filter.mp hr
  simpa using this.2

theorem fy_present_iff (result : List MonthRow) (fy : ℤ) :
    fy_present result fy = true ↔ fy_group result fy ≠ [] := by
  unfold fy_present fy_group
  rw [List.any_eq_true]
  constructor
  · rintro ⟨r, hr, hfy⟩ hnil
    have hmem : r ∈ List.filter (fun r => date_to_fy r.date == fy) result :=
      List.mem_filter.mpr ⟨hr, hfy⟩
    rw [hnil] at hmem
    exact absurd hmem (List.not_mem_nil r)
  · intro hne
    rcases hE : List.filter (fun r => date_to_fy r.date == fy) result with _ | ⟨r, t⟩
    · exact absurd hE hne
    · have hmem : r ∈ List.filter (fun r => date_to_fy r.date == fy) result := by
        rw [hE]; exact List.mem_cons_self _ _
      have := List.mem_filter.mp hmem
      exact ⟨r, this.1, this.2⟩

theorem list_sum_map_mul_right_q {α : Type} (l : List α) (f : α → ℚ) (c : ℚ) :
    (l.map (fun x => f x * c)).sum = (l.map f).sum * c := by
  induction l with
  | nil => simp
  | cons a t ih => simp [ih, add_mul]

theorem list_sum_map_const_q {α : Type} (l : List α) (c : ℚ) :
    (l.map (fun _ => c)).sum = (l.length : ℚ) * c := by
  induction l with
  | nil => simp
  | cons a t ih =>
    simp only [List.map_cons, List.sum_cons, ih, List.length_cons]
    push_cast
    ring

theorem distrib_group_sum (fr fe : ℚ) (result : List MonthRow) (fy : ℤ) (annual : ℚ)
    (hp : fy_group result fy ≠ []) :
    ((fy_group result fy).map (fun r =>
      if 0 < total_weight fr fe result fy then
        month_weight fr fe r / total_weight fr fe result fy * annual
      else annual / (n_months result fy : ℚ))).sum = annual := by
  by_cases htw : 0 < total_weight fr fe result fy
  · simp only [if_pos htw]
    have hcongr : (fy_group result fy).map (fun r =>
        month_weight fr fe r / total_weight fr fe result fy * annual) =
        (fy_group result fy).map (fun r =>
          month_weight fr fe r * (annual / total_weight fr fe result fy)) :=
      List.map_congr_left (fun r _ => by ring)
    rw [hcongr, list_sum_map_mul_right_q]
    show total_weight fr fe result fy * (annual / total_weight fr fe result fy) = annual
    field_simp
  · simp only [if_neg htw]
    rw [list_sum_map_const_q]
    show ((fy_group result fy).length : ℚ) * (annual / ((fy_group result fy).length : ℚ)) = annual
    have hlen : (fy_group result fy).length ≠ 0 :=
      fun h => hp (List.length_eq_zero.mp h)
    have hlenq : ((fy_group result fy).length : ℚ) ≠ 0 := Nat.cast_ne_zero.mpr hlen
    field_simp

theorem baseline_month_on_group (fr fe : ℚ) (drp2 : Option ℚ) (result : List MonthRow)
    (fy : ℤ) (r : MonthRow) (hr : r ∈ fy_group result fy) :
    baseline_month fr fe drp2 result r =
      (if 0 < total_weight fr fe result fy then
        month_weight fr fe r / total_weight fr fe result fy *
          (fy_baseline_pair result fr fe drp2 fy).1
      else (fy_baseline_pair result fr fe drp2 fy).1 / (n_months result fy : ℚ)) := by
  have hfy := fy_group_mem result fy r hr
  simp only [baseline_month, hfy]

theorem baseline_unfl_month_on_group (fr fe : ℚ) (drp2 : Option ℚ)
    (result : List MonthRow) (fy : ℤ) (r : MonthRow) (hr : r ∈ fy_group result fy) :
    baseline_unfl_month fr fe drp2 result r =
      (if 0 < total_weight fr fe result fy then
        month_weight fr fe r / total_weight fr fe result fy *
          (fy_baseline_pair result fr fe drp2 fy).2
      else (fy_baseline_pair result fr fe drp2 fy).2 / (n_months result fy : ℚ)) := by
  have hfy := fy_group_mem result fy r hr
  simp only [baseline_unfl_month, hfy]

theorem baseline_group_sum (fr fe : ℚ) (drp2 : Option ℚ) (result : List MonthRow)
    (fy : ℤ) (hp : fy_group result fy ≠ []) :
    ((fy_group result fy).map (baseline_month fr fe drp2 result)).sum =
      (fy_baseline_pair result fr fe drp2 fy).1 := by
  rw [List.map_congr_left (baseline_month_on_group fr fe drp2 result fy)]
  exact distrib_group_sum fr fe result fy _ hp

theorem baseline_unfl_group_sum (fr fe : ℚ) (drp2 : Option ℚ) (result : List MonthRow)
    (fy : ℤ) (hp : fy_group result fy ≠ []) :
    ((fy_group result fy).map (baseline_unfl_month fr fe drp2 result)).sum =
      (fy_baseline_pair result fr fe drp2 fy).2 := by
  rw [List.map_congr_left (baseline_unfl_month_on_group fr fe drp2 result fy)]
  exact distrib_group_sum fr fe result fy _ hp

theorem sgm_map_date (monthly : List MonthRow) (fr fe : ℚ) (csd em ep er : MDate)
    (drp2 : Option ℚ) :
    (calculate_safeguard_metrics monthly fr fe csd em ep er drp2).map SafeguardRow.date =
      (sg_filter monthly).map MonthRow.date := by
  unfold calculate_safeguard_metrics
  exact map_zipWith_left
    (safeguard_row fr fe csd em ep er drp2 (sg_filter monthly))
    SafeguardRow.date MonthRow.date (fun a b => rfl) (sg_filter monthly)
    (cumsum ((sg_filter monthly).map (smc_month_val fr fe drp2 csd (sg_filter monthly))))
    (by rw [cumsum_length, List.length_map])

/-- C10: every row of `calculate_safeguard_metrics` has a date on or after
the Safeguard start date (1 July 2023); the output dates are exactly the
filtered input dates, months strictly before the start date are removed
entirely, and when no month survives the filter the result is the empty
table. -/
theorem C10_start_date_filter (monthly : List MonthRow) (fr fe : ℚ)
    (csd em ep er : MDate) (drp2 : Option ℚ) :
    (∀ o ∈ calculate_safeguard_metrics monthly fr fe csd em ep er drp2,
      SAFEGUARD_START_DATE.leB o.date = true) ∧
    (calculate_safeguard_metrics monthly fr fe csd em ep er drp2).map SafeguardRow.date =
      (sg_filter monthly).map MonthRow.date ∧
    (∀ r ∈ monthly, SAFEGUARD_START_DATE.leB r.date = false →
      ∀ o ∈ calculate_safeguard_metrics monthly fr fe csd em ep er drp2,
        o.date ≠ r.date) ∧
    (sg_filter monthly = [] →
      calculate_safeguard_metrics monthly fr fe csd em ep er drp2 = []) := by
  have hA : ∀ o ∈ calculate_safeguard_metrics monthly fr fe csd em ep er drp2,
      SAFEGUARD_START_DATE.leB o.date = true := by
    intro o ho
    unfold calculate_safeguard_metrics at ho
    obtain ⟨r, c, hr, _, rfl⟩ := mem_zipWith_exists _ _ _ o ho
    exact (List.mem_filter.mp hr).2
  refine ⟨hA, sgm_map_date monthly fr fe csd em ep er drp2, ?_, ?_⟩
  · intro r hr hlt o ho heq
    have := hA o ho
    rw [heq, hlt] at this
    exact Bool.noConfusion this
  · intro hnil
    unfold calculate_safeguard_metrics
    rw [hnil]
    rfl

/-- C3: every fiscal year whose annual Scope-1 total is at or above the
100,000 tCO2-e safeguard threshold and whose year start is not before the
credit-scheme start date is classified "Safeguard" (never "Exited"), both in
the per-year classifier `fy_phase` and on every output row of that year;
hence a year that rises back above the threshold after a dip re-enters
Safeguard with no sticky exited state. -/
theorem C3_reentry_classification (monthly : List MonthRow) (fr fe : ℚ)
    (csd em ep er : MDate) (drp2 : Option ℚ) (fy : ℤ)
    (hstart : (fy_start_date fy).ltB csd = false)
    (hthresh : SAFEGUARD_THRESHOLD ≤ fy_s1_sum (sg_filter monthly) fy) :
    fy_phase (sg_filter monthly) csd fy = "Safeguard" ∧
    fy_phase (sg_filter monthly) csd fy ≠ "Exited" ∧
    (∀ o ∈ calculate_safeguard_metrics monthly fr fe csd em ep er drp2,
      date_to_fy o.date = fy → o.smc_phase = "Safeguard") := by
  have hphase : fy_phase (sg_filter monthly) csd fy = "Safeguard" := by
    unfold fy_phase
    rw [if_neg (by simp [hstart]), if_pos hthresh]
  refine ⟨hphase, by rw [hphase]; decide, ?_⟩
  intro o ho hfy
  unfold calculate_safeguard_metrics at ho
  obtain ⟨r, c, hr, _, rfl⟩ := mem_zipWith_exists _ _ _ o ho
  show fy_phase (sg_filter monthly) csd (date_to_fy r.date) = "Safeguard"
  have hrfy : date_to_fy r.date = fy := hfy
  rw [hrfy, hphase]

/-- C2: in the output of `calculate_safeguard_metrics`, the SMC of each month
is determined by the phase of its fiscal year: in "Safeguard" it equals the
unfloored-baseline share minus Scope 1 for dates at/after the credit start
date and 0 before; in "Gap" it is 0; in "Opt-In" it is the same difference
floored at 0; in "Exited" it is 0; and `SMC_Cumulative` is the running sum of
the monthly values across the whole (date-ordered) output, never reset. -/
theorem C2_smc_phase_rules (monthly : List MonthRow) (fr fe : ℚ)
    (csd em ep er : MDate) (drp2 : Option ℚ) (out : List SafeguardRow)
    (hout : out = calculate_safeguard_metrics monthly fr fe csd em ep er drp2)
    (hsort : List.Pairwise (fun a b : MonthRow => a.date.leB b.date = true) monthly)
    (i : ℕ) (hi : i < out.length) :
    (out[i].smc_phase = "Safeguard" → out[i].smc_monthly =
      (if csd.leB out[i].date then out[i].baseline_unfloored - out[i].scope1_tCO2e
       else 0)) ∧
    (out[i].smc_phase = "Gap" → out[i].smc_monthly = 0) ∧
    (out[i].smc_phase = "Opt-In" → out[i].smc_monthly =
      max (if csd.leB out[i].date then out[i].baseline_unfloored - out[i].scope1_tCO2e
       else 0) 0) ∧
    (out[i].smc_phase = "Exited" → out[i].smc_monthly = 0) ∧
    out[i].smc_cumulative = ((out.take (i + 1)).map SafeguardRow.smc_monthly).sum ∧
    List.Pairwise (fun a b : SafeguardRow => a.date.leB b.date = true) out := by
  subst hout
  unfold calculate_safeguard_metrics at hi ⊢
  have hclen : (cumsum ((sg_filter monthly).map
      (smc_month_val fr fe drp2 csd (sg_filter monthly)))).length =
      (sg_filter monthly).length := by
    rw [cumsum_length, List.length_map]
  have hi2 : i < (sg_filter monthly).length := by
    rw [List.length_zipWith, hclen, min_self] at hi
    exact hi
  have hic : i < (cumsum ((sg_filter monthly).map
      (smc_month_val fr fe drp2 csd (sg_filter monthly)))).length := by
    rw [hclen]; exact hi2
  rw [List.getElem_zipWith]
  simp only [safeguard_row]
  refine ⟨?_, ?_, ?_, ?_, ?_, ?_⟩
  · intro hp
    unfold smc_month_val
    rw [hp, if_neg (by decide), if_neg (by decide), if_neg (by decide)]
    rfl
  · intro hp
    unfold smc_month_val
    rw [hp, if_pos rfl]
  · intro hp
    unfold smc_month_val
    rw [hp, if_neg (by decide), if_pos rfl]
    show (if smc_raw fr fe drp2 csd (sg_filter monthly) (sg_filter monthly)[i] < 0
        then (0:ℚ) else smc_raw fr fe drp2 csd (sg_filter monthly) (sg_filter monthly)[i]) =
      max (smc_raw fr fe drp2 csd (sg_filter monthly) (sg_filter monthly)[i]) 0
    by_cases hneg : smc_raw fr fe drp2 csd (sg_filter monthly) (sg_filter monthly)[i] < 0
    · rw [if_pos hneg, max_eq_right (le_of_lt hneg)]
    · rw [if_neg hneg, max_eq_left (not_lt.mp hneg)]
  · intro hp
    unfold smc_month_val
    rw [hp, if_neg (by decide), if_neg (by decide), if_pos rfl]
  · rw [cumsum_getElem _ i hic]
    have hmaps : (List.zipWith
        (safeguard_row fr fe csd em ep er drp2 (sg_filter monthly))
        (sg_filter monthly)
        (cumsum ((sg_filter monthly).map
          (smc_month_val fr fe drp2 csd (sg_filter monthly))))).map
          SafeguardRow.smc_monthly =
        (sg_filter monthly).map (smc_month_val fr fe drp2 csd (sg_filter monthly)) :=
      map_zipWith_left (safeguard_row fr fe csd em ep er drp2 (sg_filter monthly))
        SafeguardRow.smc_monthly (smc_month_val fr fe drp2 csd (sg_filter monthly))
        (fun a b => rfl) (sg_filter monthly)
        (cumsum ((sg_filter monthly).map
          (smc_month_val fr fe drp2 csd (sg_filter monthly)))) hclen.symm
    rw [List.map_take, hmaps]
  · have hpw : List.Pairwise (fun a b : MonthRow => a.date.leB b.date = true)
        (sg_filter monthly) := hsort.filter _
    have hd2 : (List.zipWith
        (safeguard_row fr fe csd em ep er drp2 (sg_filter monthly))
        (sg_filter monthly)
        (cumsum ((sg_filter monthly).map
          (smc_month_val fr fe drp2 csd (sg_filter monthly))))).map
          SafeguardRow.date = (sg_filter monthly).map MonthRow.date :=
      map_zipWith_left (safeguard_row fr fe csd em ep er drp2 (sg_filter monthly))
        SafeguardRow.date MonthRow.date (fun a b => rfl) (sg_filter monthly)
        (cumsum ((sg_filter monthly).map
          (smc_month_val fr fe drp2 csd (sg_filter monthly)))) hclen.symm
    have hmapped : List.Pairwise (fun x y : MDate => x.leB y = true)
        ((sg_filter monthly).map MonthRow.date) := List.pairwise_map.mpr hpw
    exact List.pairwise_map.mp (hd2.symm ▸ hmapped)

/-- C4: for every fiscal year present in the table, the monthly `Baseline`
allocations sum exactly (in exact rational arithmetic) to the annual
floored baseline of the year and the `Baseline_Unfloored` allocations to the
annual unfloored baseline; and when the total production weight of the year is
zero every month of the year receives the annual value divided by the number
of months. -/
theorem C4_baseline_distribution (monthly : List MonthRow) (fr fe : ℚ)
    (csd em ep er : MDate) (drp2 : Option ℚ) (fy : ℤ) (out : List SafeguardRow)
    (hout : out = calculate_safeguard_metrics monthly fr fe csd em ep er drp2)
    (hp : fy_present (sg_filter monthly) fy = true) :
    ((out.filter (fun o => date_to_fy o.date == fy)).map SafeguardRow.baseline).sum =
      (fy_baseline_pair (sg_filter monthly) fr fe drp2 fy).1 ∧
    ((out.filter (fun o => date_to_fy o.date == fy)).map
        SafeguardRow.baseline_unfloored).sum =
      (fy_baseline_pair (sg_filter monthly) fr fe drp2 fy).2 ∧
    (total_weight fr fe (sg_filter monthly) fy = 0 →
      ∀ o ∈ out, date_to_fy o.date = fy →
        o.baseline = (fy_baseline_pair (sg_filter monthly) fr fe drp2 fy).1 /
          (n_months (sg_filter monthly) fy : ℚ) ∧
        o.baseline_unfloored = (fy_baseline_pair (sg_filter monthly) fr fe drp2 fy).2 /
          (n_months (sg_filter monthly) fy : ℚ)) := by
  subst hout
  unfold calculate_safeguard_metrics
  have hclen : (sg_filter monthly).length = (cumsum ((sg_filter monthly).map
      (smc_month_val fr fe drp2 csd (sg_filter monthly)))).length := by
    rw [cumsum_length, List.length_map]
  have hgne : fy_group (sg_filter monthly) fy ≠ [] := (fy_present_iff _ _).mp hp
  refine ⟨?_, ?_, ?_⟩
  · rw [filter_map_zipWith_left
      (safeguard_row fr fe csd em ep er drp2 (sg_filter monthly))
      (fun o => date_to_fy o.date == fy) (fun r => date_to_fy r.date == fy)
      SafeguardRow.baseline (baseline_month fr fe drp2 (sg_filter monthly))
      (fun a b => rfl) (fun a b => rfl) (sg_filter monthly)
      (cumsum ((sg_filter monthly).map
        (smc_month_val fr fe drp2 csd (sg_filter monthly)))) hclen]
    exact baseline_group_sum fr fe drp2 (sg_filter monthly) fy hgne
  · rw [filter_map_zipWith_left
      (safeguard_row fr fe csd em ep er drp2 (sg_filter monthly))
      (fun o => date_to_fy o.date == fy) (fun r => date_to_fy r.date == fy)
      SafeguardRow.baseline_unfloored (baseline_unfl_month fr fe drp2 (sg_filter monthly))
      (fun a b => rfl) (fun a b => rfl) (sg_filter monthly)
      (cumsum ((sg_filter monthly).map
        (smc_month_val fr fe drp2 csd (sg_filter monthly)))) hclen]
    exact baseline_unfl_group_sum fr fe drp2 (sg_filter monthly) fy hgne
  · intro htw o ho hfy
    obtain ⟨r, c, hr, _, rfl⟩ := mem_zipWith_exists _ _ _ o ho
    have hrfy : date_to_fy r.date = fy := hfy
    constructor
    · show baseline_month fr fe drp2 (sg_filter monthly) r = _
      simp only [baseline_month, hrfy]
      rw [if_neg (by rw [htw]; exact lt_irrefl 0)]
    · show baseline_unfl_month fr fe drp2 (sg_filter monthly) r = _
      simp only [baseline_unfl_month, hrfy]
      rw [if_neg (by rw [htw]; exact lt_irrefl 0)]

theorem C3_witness :
    (fy_start_date 2026).ltB ⟨2023, 7, 1⟩ = false ∧
    SAFEGUARD_THRESHOLD ≤ fy_s1_sum (sg_filter exMonths) 2026 ∧
    fy_phase (sg_filter exMonths) ⟨2023, 7, 1⟩ 2026 = "Safeguard" ∧
    fy_phase (sg_filter exMonths) ⟨2023, 7, 1⟩ 2026 ≠ "Exited" ∧
    fy_phase (sg_filter exMonths) ⟨2023, 7, 1⟩ 2025 = "Gap" := by
  have h := C3_reentry_classification exMonths 0.0177 0.9081 ⟨2023, 7, 1⟩
    ⟨2037, 3, 31⟩ ⟨2039, 12, 31⟩ ⟨2044, 12, 31⟩ none 2026 (by decide) (by decide)
  exact ⟨by decide, by decide, h.1, h.2.1, by decide⟩

theorem C2_witness :
    ∃ hi : 0 < (calculate_safeguard_metrics exMonths 0.0177 0.9081 ⟨2023, 7, 1⟩
        ⟨2037, 3, 31⟩ ⟨2039, 12, 31⟩ ⟨2044, 12, 31⟩ none).length,
      (calculate_safeguard_metrics exMonths 0.0177 0.9081 ⟨2023, 7, 1⟩
        ⟨2037, 3, 31⟩ ⟨2039, 12, 31⟩ ⟨2044, 12, 31⟩ none)[0].smc_cumulative =
      (((calculate_safeguard_metrics exMonths 0.0177 0.9081 ⟨2023, 7, 1⟩
        ⟨2037, 3, 31⟩ ⟨2039, 12, 31⟩ ⟨2044, 12, 31⟩ none).take 1).map
          SafeguardRow.smc_monthly).sum := by
  have hlen : 0 < (calculate_safeguard_metrics exMonths 0.0177 0.9081 ⟨2023, 7, 1⟩
      ⟨2037, 3, 31⟩ ⟨2039, 12, 31⟩ ⟨2044, 12, 31⟩ none).length := by decide
  have h := C2_smc_phase_rules exMonths 0.0177 0.9081 ⟨2023, 7, 1⟩
    ⟨2037, 3, 31⟩ ⟨2039, 12, 31⟩ ⟨2044, 12, 31⟩ none _ rfl (by decide) 0 hlen
  exact ⟨hlen, h.2.2.2.2.1⟩

theorem C4_witness :
    fy_present (sg_filter exMonths) 2024 = true ∧
    (((calculate_safeguard_metrics exMonths 0.0177 0.9081 ⟨2023, 7, 1⟩
        ⟨2037, 3, 31⟩ ⟨2039, 12, 31⟩ ⟨2044, 12, 31⟩ none).filter
        (fun o => date_to_fy o.date == 2024)).map SafeguardRow.baseline).sum =
      (fy_baseline_pair (sg_filter exMonths) 0.0177 0.9081 none 2024).1 ∧
    (total_weight 0.0177 0.9081 (sg_filter exZeroProd) 2024 = 0 ∧
      ∃ o ∈ calculate_safeguard_metrics exZeroProd 0.0177 0.9081 ⟨2023, 7, 1⟩
        ⟨2037, 3, 31⟩ ⟨2039, 12, 31⟩ ⟨2044, 12, 31⟩ none,
        o.baseline = (fy_baseline_pair (sg_filter exZeroProd) 0.0177 0.9081 none 2024).1 /
          (n_months (sg_filter exZeroProd) 2024 : ℚ)) := by
  refine ⟨by decide,
    (C4_baseline_distribution exMonths 0.0177 0.9081 ⟨2023, 7, 1⟩
      ⟨2037, 3, 31⟩ ⟨2039, 12, 31⟩ ⟨2044, 12, 31⟩ none 2024 _ rfl (by decide)).1,
    by decide, ?_⟩
  refine ⟨exZeroOut, by decide, ?_⟩
  have h := (C4_baseline_distribution exZeroProd 0.0177 0.9081 ⟨2023, 7, 1⟩
    ⟨2037, 3, 31⟩ ⟨2039, 12, 31⟩ ⟨2044, 12, 31⟩ none 2024 _ rfl (by decide)).2.2
    (by decide) exZeroOut (by decide) (by decide)
  exact h.1

theorem C6_witness :
    ∃ ho : 0 < (apply_emissions_to_df exC6rows exC6fmap).length,
      (apply_emissions_to_df exC6rows exC6fmap)[0].scope1_tCO2e = 2 * 2700 / 1000 ∧
      (apply_emissions_to_df exC6rows exC6fmap)[0].scope2_tCO2e = 0 := by
  obtain ⟨ho, _, h1, h2, _⟩ := C6_emissions_formula exC6rows exC6fmap 0 (by decide)
    ⟨2700, 0, 130, 38.6, "kL"⟩ (by decide)
  refine ⟨ho, ?_, ?_⟩
  · rw [h1]; decide
  · rw [h2]; decide

theorem C9_witness :
    exC9out2 ∈ aggregate_to_monthly exC9rows ∧ exC9out2.rom_t = 0 := by
  refine ⟨by decide, ?_⟩
  have h := (C9_monthly_aggregation exC9rows).2.2.2 exC9out2 (by decide)
  exact h.2.2.2.1 (by decide)

theorem C10_witness :
    sg_filter exPreMonths = [] ∧
    calculate_safeguard_metrics exPreMonths 0.0177 0.9081 ⟨2023, 7, 1⟩
      ⟨2037, 3, 31⟩ ⟨2039, 12, 31⟩ ⟨2044, 12, 31⟩ none = [] :=
  ⟨by decide,
   (C10_start_date_filter exPreMonths 0.0177 0.9081 ⟨2023, 7, 1⟩
     ⟨2037, 3, 31⟩ ⟨2039, 12, 31⟩ ⟨2044, 12, 31⟩ none).2.2.2 (by decide)⟩
